import Mathlib

/-!
Verification of the superschedules_IAC deploy_manager core against its
specification.

The definitions below are a shallow embedding of the Python sources:
  - deploy_manager/deploy_state.py   (DeployState)
  - deploy_manager/aws_client.py     (AWSClient.get_environment_status)
  - deploy_manager/cli.py            (DeploymentManager: get_active_environment,
                                      deploy_to_inactive, _monitor_deployment,
                                      flip_traffic, deploy_and_flip)
  - deploy_manager/ecr_client.py     (ECRClient.wait_for_image)

Remote AWS / subprocess interactions are modelled as explicit oracle
parameters (pure functions describing what the external world returns),
so every definition is an executable Lean function mirroring the Python
control flow.
-/

/-! ## Deployment history (deploy_state.py) -/

/-- One record of the S3-backed deployment history (the dict built in
`DeployState.record_deploy`). -/
structure Deployment where
  tag : String
  service : String
  timestamp : String
  deployed_by : String
deriving Repr, DecidableEq

/-- The persisted state: `{"deployments": [...]}`. -/
structure DeployState where
  deployments : List Deployment
deriving Repr, DecidableEq

/-- `DeployState.MAX_HISTORY = 50`. -/
def MAX_HISTORY : Nat := 50

/-- `DeployState.record_deploy`: insert the new record at the front of the
list, then trim to `MAX_HISTORY` entries. -/
def record_deploy (state : DeployState) (tag service timestamp deployed_by : String) :
    DeployState :=
  { deployments :=
      (Deployment.mk tag service timestamp deployed_by :: state.deployments).take MAX_HISTORY }

/-- `DeployState.get_history(limit)`: first `limit` entries, newest first. -/
def get_history (state : DeployState) (limit : Nat) : List Deployment :=
  state.deployments.take limit

/-- `DeployState.get_current_tag`: tag of `get_history(limit=1)[0]`, if any. -/
def get_current_tag (state : DeployState) : Option String :=
  match get_history state 1 with
  | [] => none
  | d :: _ => some d.tag

/-- `DeployState.get_previous_tag`: tag of `get_history(limit=2)[1]`, if the
history has at least two entries. -/
def get_previous_tag (state : DeployState) : Option String :=
  match get_history state 2 with
  | _ :: d :: _ => some d.tag
  | _ => none

/-! ## AWS data model (aws_client.py) -/

/-- The fields of a `describe_auto_scaling_groups` record that the manager
reads. `Instances` is the list of instance ids. -/
structure AsgInfo where
  DesiredCapacity : Nat
  MinSize : Nat
  MaxSize : Nat
  Instances : List String
deriving Repr, DecidableEq

/-- The fields of a `describe_instances` record that
`get_environment_status` reads.  `InstanceLifecycle` is absent
(`none`) for on-demand instances. -/
structure Ec2Instance where
  InstanceId : String
  InstanceType : String
  InstanceLifecycle : Option String
  StateName : String
  LaunchTime : Nat
  AvailabilityZone : String
deriving Repr, DecidableEq

/-- Uptime triple computed by `AWSClient.calculate_instance_uptime`. -/
structure Uptime where
  days : Nat
  hours : Nat
  minutes : Nat
deriving Repr, DecidableEq

/-- `AWSClient.calculate_instance_uptime`: `delta = now - launch_time`;
days from the whole-day part, then `divmod(delta.seconds, 3600)` on the
remaining seconds.  Times are in seconds. -/
def calculate_instance_uptime (launch_time now : Nat) : Uptime :=
  let total := now - launch_time
  let days := total / 86400
  let secs := total % 86400
  { days := days, hours := secs / 3600, minutes := secs % 3600 / 60 }

/-- One entry of the `instances` list built by `get_environment_status`. -/
structure InstanceDetail where
  instance_id : String
  instance_type : String
  lifecycle : String
  state : String
  launch_time : Nat
  uptime : Uptime
  hourly_cost : ℚ
  availability_zone : String
deriving Repr, DecidableEq

/-- The status dict returned by `AWSClient.get_environment_status`.
In the source, the `exists=False` branch returns a dict containing only
`exists`, `instances`, `desired_capacity` and `health`; the remaining
fields are modelled as zero/empty there (they are never read in that
case). -/
structure EnvStatus where
  exists_ : Bool
  asg_name : String
  desired_capacity : Nat
  min_size : Nat
  max_size : Nat
  instances : List InstanceDetail
  health : List (String × List String)
  total_hourly_cost : ℚ
  total_monthly_cost : ℚ
deriving Repr, DecidableEq

/-- The hourly-cost expression of `get_environment_status`: for a spot
instance, `spot_price if spot_price else 0.0` applied to the
`get_spot_price` result (`none` models an empty `SpotPriceHistory`);
on-demand instances use the constant t3.micro price `0.0094`. -/
def instance_hourly_cost (lifecycle : String) (price : Option ℚ) : ℚ :=
  if lifecycle == "spot" then
    match price with
    | some p => if p == 0 then 0 else p
    | none => 0
  else 94 / 10000

/-- `AWSClient.get_environment_status`.  External reads are oracles:
`asg_info` is the `get_asg_info(asg_name)` result, `describe` is
`get_instance_details`, `tg_health_of` is `get_target_group_health`
keyed by ARN, and `spot_price` is `get_spot_price (type) (az)`. -/
def get_environment_status
    (asg_info : Option AsgInfo)
    (describe : List String → List Ec2Instance)
    (tg_health_of : String → List String)
    (spot_price : String → String → Option ℚ)
    (now : Nat)
    (asg_name : String)
    (target_group_arns : List (String × String)) : EnvStatus :=
  match asg_info with
  | none =>
      { exists_ := false, asg_name := "", desired_capacity := 0, min_size := 0,
        max_size := 0, instances := [], health := [],
        total_hourly_cost := 0, total_monthly_cost := 0 }
  | some info =>
      let instance_ids := info.Instances
      let instances := describe instance_ids
      let health := target_group_arns.map (fun p => (p.1, tg_health_of p.2))
      let instance_details := instances.map (fun i =>
        let lifecycle := i.InstanceLifecycle.getD "on-demand"
        let hourly_cost :=
          instance_hourly_cost lifecycle (spot_price i.InstanceType i.AvailabilityZone)
        { instance_id := i.InstanceId
          instance_type := i.InstanceType
          lifecycle := lifecycle
          state := i.StateName
          launch_time := i.LaunchTime
          uptime := calculate_instance_uptime i.LaunchTime now
          hourly_cost := hourly_cost
          availability_zone := i.AvailabilityZone })
      let total_hourly_cost := (instance_details.map (·.hourly_cost)).sum
      { exists_ := true
        asg_name := asg_name
        desired_capacity := info.DesiredCapacity
        min_size := info.MinSize
        max_size := info.MaxSize
        instances := instance_details
        health := health
        total_hourly_cost := total_hourly_cost
        total_monthly_cost := total_hourly_cost * 730 }

/-! ## Active-environment resolution (cli.py, get_active_environment) -/

/-- The capacity expression
`blue_info["DesiredCapacity"] if blue_info else 0` used by the fallback. -/
def asgCapacity (info : Option AsgInfo) : Nat :=
  match info with
  | some i => i.DesiredCapacity
  | none => 0

/-- The capacity heuristic in the generic `except` branch of
`get_active_environment`. -/
def heuristic_fallback (blue_info green_info : Option AsgInfo) : String :=
  let blue_capacity := asgCapacity blue_info
  let green_capacity := asgCapacity green_info
  if blue_capacity > 0 && green_capacity == 0 then "blue"
  else if green_capacity > 0 && blue_capacity == 0 then "green"
  else "unknown"

/-- Outcome of the `terraform output -json active_color` subprocess call
combined with the subsequent JSON parse:
`parsed s` models a successful run whose parsed-and-stripped output is `s`;
`timedOut` models `subprocess.TimeoutExpired`;
`failed` models every other exception (tool error, parse error, ...). -/
inductive TfRead where
  | parsed (active : String)
  | timedOut
  | failed
deriving Repr, DecidableEq

/-- `DeploymentManager.get_active_environment`.  The result is
`Option String` because the Python function can return `None`: the
`except subprocess.TimeoutExpired` handler only prints a warning and then
control leaves the `try` statement and falls off the end of the function —
the capacity-heuristic block lives only in the generic `except Exception`
handler, so it is not reached on a timeout. -/
def get_active_environment (tf : TfRead) (blue_info green_info : Option AsgInfo) :
    Option String :=
  match tf with
  | .parsed active => some active
  | .timedOut => none
  | .failed => some (heuristic_fallback blue_info green_info)

/-! ## Health-convergence monitor (cli.py, _monitor_deployment) -/

/-- Per-target-group branch of the health loop in `_monitor_deployment`:
the contribution of one target group to `all_healthy`.  Empty health →
`all_healthy = False`; all `healthy` or all `unused` leaves it alone;
the `initial`, `unhealthy` and mixed-state branches set it to `False`. -/
def tg_all_healthy (entries : List String) : Bool :=
  if entries.isEmpty then false
  else
    let healthy_count := entries.countP (· == "healthy")
    let unused_count := entries.countP (· == "unused")
    let unhealthy_count := entries.countP (· == "unhealthy")
    let initial_count := entries.countP (· == "initial")
    let total_count := entries.length
    if healthy_count == total_count then true
    else if unused_count == total_count then true
    else if initial_count > 0 then false
    else if unhealthy_count > 0 then false
    else false

/-- The per-poll readiness check of `_monitor_deployment`: statuses with
`exists=False` or zero desired capacity take the "No instances" branch and
are never ready; otherwise ready iff `all_healthy` and
`len(instances) >= desired_capacity`. -/
def monitor_ready (status : EnvStatus) : Bool :=
  if !status.exists_ || status.desired_capacity == 0 then false
  else
    (status.health.all fun p => tg_all_healthy p.2) &&
      decide (status.instances.length ≥ status.desired_capacity)

/-- Convergence predicate exactly as the specification words it (§4.3 /
§8): every descriptor's entries all `healthy` or all `unused` (zero
entries fail), and instance count at least desired capacity.  Used only
to compare the spec sentence against `monitor_ready`. -/
def spec_converged (status : EnvStatus) : Bool :=
  (status.health.all fun p =>
      !p.2.isEmpty && (p.2.all (· == "healthy") || p.2.all (· == "unused"))) &&
    decide (status.instances.length ≥ status.desired_capacity)

/-- `max_wait_time = 600` seconds in `_monitor_deployment`. -/
def max_wait_time : Nat := 600

/-- `check_interval = 10` seconds in `_monitor_deployment`. -/
def check_interval : Nat := 10

/-- The `while elapsed < max_wait_time` loop of `_monitor_deployment`,
over the stream of statuses the poll would sample (`statuses n` is the
`get_environment_status` snapshot of the n-th poll).  The second
component instruments the number of polls performed. -/
def monitorLoop (statuses : Nat → EnvStatus) (elapsed polls : Nat) : Bool × Nat :=
  if elapsed < max_wait_time then
    if monitor_ready (statuses polls) then (true, polls + 1)
    else monitorLoop statuses (elapsed + check_interval) (polls + 1)
  else (false, polls)
termination_by max_wait_time - elapsed
decreasing_by simp only [max_wait_time, check_interval] at *; omega

/-- `DeploymentManager._monitor_deployment` (result, number of polls). -/
def monitor_deployment (statuses : Nat → EnvStatus) : Bool × Nat :=
  monitorLoop statuses 0 0

/-- Structural reformulation of `monitorLoop` counting the remaining
iterations; used to compute with and reason about the loop. -/
def monitorIter (statuses : Nat → EnvStatus) (polls : Nat) : Nat → Bool × Nat
  | 0 => (false, polls)
  | n + 1 =>
      if monitor_ready (statuses polls) then (true, polls + 1)
      else monitorIter statuses (polls + 1) n

/-! ## Orchestration (cli.py: deploy_to_inactive, flip_traffic, deploy_and_flip) -/

/-- Observable outcome of one `deploy_to_inactive` invocation:
`result` is the returned boolean, `deployCalls` counts invocations of the
external `make deploy:new-<target>` trigger, `target` is the chosen
target environment (when one was chosen). -/
structure DeployRun where
  result : Bool
  deployCalls : Nat
  target : Option String
deriving Repr, DecidableEq

/-- `DeploymentManager.deploy_to_inactive`.  Oracles: `active` is the
`get_active_environment` result, `confirmAnswer` the `click.confirm`
answer, `active_asg_info` the active ASG lookup (only used for capacity
preservation), `deployExit` the exit code of the deploy subprocess,
`restartOk` the celery-beat restart outcome (warnings only), and
`monitorResult` the `_monitor_deployment` outcome. -/
def deploy_to_inactive
    (active : Option String)
    (skip_confirm confirmAnswer : Bool)
    (active_asg_info : Option AsgInfo)
    (deployExit : Int)
    (restartOk : Bool)
    (monitorResult : Bool) : DeployRun :=
  if active == some "unknown" then
    { result := false, deployCalls := 0, target := none }
  else
    let target_env := if active == some "blue" then "green" else "blue"
    if !skip_confirm && !confirmAnswer then
      { result := false, deployCalls := 0, target := none }
    else
      if deployExit ≠ 0 then
        { result := false, deployCalls := 1, target := some target_env }
      else
        { result := monitorResult, deployCalls := 1, target := some target_env }

/-- The two external traffic-switch actions of `flip_traffic`:
`forward` is the make deploy:flip action, `rollback` the
make deploy:rollback action. -/
inductive FlipCmd where
  | forward
  | rollback
deriving Repr, DecidableEq

/-- Result of running one of the traffic-switch subprocesses with
`check=True`: `ok stdout`, or `procError stderr` for
`subprocess.CalledProcessError` (captured stderr, possibly empty). -/
inductive ActionResult where
  | ok (stdout : String)
  | procError (stderr : String)
deriving Repr, DecidableEq

/-- Observable outcome of one `flip_traffic` invocation. `surfacedErr`
is the stderr text printed on failure (the source prints `e.stderr`
only when it is non-empty). -/
structure FlipRun where
  result : Bool
  forwardCalls : Nat
  rollbackCalls : Nat
  surfacedErr : Option String
deriving Repr, DecidableEq

/-- Target selection at the top of `flip_traffic`: an explicit target is
kept, otherwise the complement of the resolved active environment. -/
def flip_target (active target_env : Option String) : String :=
  match target_env with
  | none => if active == some "blue" then "green" else "blue"
  | some t => t

/-- Command selection of `flip_traffic`: the forward action
(make deploy:flip) for target green, the rollback action
(make deploy:rollback) otherwise. -/
def flip_cmd_of (target : String) : FlipCmd :=
  if target == "green" then FlipCmd.forward else FlipCmd.rollback

/-- `DeploymentManager.flip_traffic`.  `active` is the resolver result,
`target_env` the optional explicit target, `runCmd` the outcome of the
chosen external action. -/
def flip_traffic
    (active : Option String)
    (target_env : Option String)
    (skip_confirm confirmAnswer : Bool)
    (runCmd : FlipCmd → ActionResult) : FlipRun :=
  let target := flip_target active target_env
  if !skip_confirm && !confirmAnswer then
    { result := false, forwardCalls := 0, rollbackCalls := 0, surfacedErr := none }
  else
    let cmd := flip_cmd_of target
    let fwd := if target == "green" then 1 else 0
    let rb := if target == "green" then 0 else 1
    match runCmd cmd with
    | .ok _ =>
        { result := true, forwardCalls := fwd, rollbackCalls := rb, surfacedErr := none }
    | .procError stderr =>
        { result := false, forwardCalls := fwd, rollbackCalls := rb,
          surfacedErr := if stderr.isEmpty then none else some stderr }

/-- How `deploy_and_flip` reports its outcome to the operator. -/
inductive DAFReport where
  | abortedUnknown
  | deployFailedAborted
  | deployedNotFlipped
  | complete
deriving Repr, DecidableEq

/-- Observable outcome of one `deploy_and_flip` invocation. -/
structure DAFRun where
  result : Bool
  deployCalls : Nat
  flipCalls : Nat
  report : DAFReport
deriving Repr, DecidableEq

/-- `DeploymentManager.deploy_and_flip`.  It resolves the active
environment itself (`active`), runs `deploy_to_inactive` with
`skip_confirm=True` (which performs its own resolution, `activeInner`),
and on success runs `flip_traffic(target_env, skip_confirm=True)`
(`activeFlip` is the resolution inside that call).  `flipCalls` counts
invocations of `flip_traffic`. -/
def deploy_and_flip
    (active : Option String)
    (activeInner : Option String)
    (active_asg_info : Option AsgInfo)
    (deployExit : Int)
    (restartOk : Bool)
    (monitorResult : Bool)
    (activeFlip : Option String)
    (runCmd : FlipCmd → ActionResult) : DAFRun :=
  if active == some "unknown" then
    { result := false, deployCalls := 0, flipCalls := 0, report := .abortedUnknown }
  else
    let target_env := if active == some "blue" then "green" else "blue"
    let d := deploy_to_inactive activeInner true true active_asg_info deployExit
        restartOk monitorResult
    if !d.result then
      { result := false, deployCalls := d.deployCalls, flipCalls := 0,
        report := .deployFailedAborted }
    else
      let f := flip_traffic activeFlip (some target_env) true true runCmd
      if f.result then
        { result := true, deployCalls := d.deployCalls, flipCalls := 1,
          report := .complete }
      else
        { result := false, deployCalls := d.deployCalls, flipCalls := 1,
          report := .deployedNotFlipped }

/-! ## Image readiness poller (ecr_client.py, wait_for_image) -/

/-- `base_delay = 2` in `wait_for_image`. -/
def base_delay : Nat := 2

/-- `max_delay = 15` in `wait_for_image`. -/
def max_delay : Nat := 15

/-- The pre-jitter delay computed for a given attempt number (attempts
count from 1): `min(base_delay * 2 ** min(attempt - 1, 3), max_delay)`. -/
def backoff_delay (attempt : Nat) : Nat :=
  min (base_delay * 2 ^ (min (attempt - 1) 3)) max_delay

/-- Record of one sleep performed between existence checks. -/
structure SleepRec where
  delay : ℚ
  jitter : ℚ
  sleep : ℚ
  remaining : ℚ
deriving Repr, DecidableEq

/-- The bounds the source imposes on one sleep: the jitter drawn by
`random.uniform` is nonnegative and at most 20 percent of the computed
delay, and the sleep neither exceeds the remaining timeout budget nor
the jittered delay. -/
def sleepRecOK (rec : SleepRec) : Prop :=
  0 ≤ rec.jitter ∧ rec.jitter ≤ rec.delay / 5 ∧
    rec.sleep ≤ rec.remaining ∧ rec.sleep ≤ rec.delay + rec.jitter

/-- Observable outcome of one `wait_for_image` invocation: the returned
boolean, the number of existence checks performed, and the sleeps. -/
structure WaitRun where
  found_result : Bool
  attempts : Nat
  sleeps : List SleepRec
deriving Repr, DecidableEq

/-- Helper for the termination of `wait_loop`: each sleep either lands
exactly on the remaining budget (an integer), or is at least 2 seconds. -/
theorem wait_measure_decreases (timeout : ℤ) (now actual : ℚ)
    (h : ⌊now⌋ < timeout)
    (h2 : 2 ≤ actual ∨ actual = ((timeout - ⌊now⌋ : ℤ) : ℚ)) :
    (timeout - ⌊now + actual⌋).toNat < (timeout - ⌊now⌋).toNat := by
  rcases h2 with h2 | h2
  · have hf : ⌊now⌋ + 2 ≤ ⌊now + actual⌋ := by
      rw [Int.le_floor]
      push_cast
      have := Int.floor_le now
      linarith
    omega
  · subst h2
    rw [Int.floor_add_int]
    omega

/-- The pre-jitter `delay` binding of the loop body of `wait_for_image`,
as a rational. -/
def wait_delay (a : Nat) : ℚ := (backoff_delay a : ℚ)

/-- The `jitter` binding: `random.uniform(0, delay * 0.2)` modelled as an
arbitrary draw `jit a` clamped into the interval `[0, delay / 5]` that
`random.uniform` guarantees. -/
def wait_jitter (jit : Nat → ℚ) (a : Nat) : ℚ :=
  max 0 (min (jit a) (wait_delay a / 5))

/-- The `remaining = timeout - elapsed` binding, where
`elapsed = int(time.time() - start_time)` is the floor of the real
elapsed time. -/
def wait_remaining (timeout : ℤ) (now : ℚ) : ℚ :=
  ((timeout - ⌊now⌋ : ℤ) : ℚ)

/-- The `actual_delay` binding: the jittered delay, truncated to the
remaining budget when it would overshoot it. -/
def wait_actual (jit : Nat → ℚ) (timeout : ℤ) (a : Nat) (now : ℚ) : ℚ :=
  if wait_remaining timeout now < wait_delay a + wait_jitter jit a then
    wait_remaining timeout now
  else wait_delay a + wait_jitter jit a

/-- Every pre-jitter delay is at least the base delay of 2 seconds. -/
theorem two_le_wait_delay (a : Nat) : (2 : ℚ) ≤ wait_delay a := by
  have : 2 ≤ backoff_delay a := by
    unfold backoff_delay base_delay max_delay
    have h1 : 2 * 1 ≤ 2 * 2 ^ min (a - 1) 3 :=
      Nat.mul_le_mul_left 2 (Nat.one_le_two_pow)
    omega
  unfold wait_delay
  exact_mod_cast this

/-- The polling loop of `ECRClient.wait_for_image`, one recursive step
per iteration of the `while True` loop.  `found a` is the result of the
a-th `image_exists` check; `jit a` is the value drawn by
`random.uniform(0, delay * 0.2)` before the a-th sleep; `now` is the
wall-clock time elapsed since `start_time`, so
`elapsed = int(time.time() - start_time)` is its floor. -/
def wait_loop (found : Nat → Bool) (jit : Nat → ℚ) (timeout : ℤ)
    (attempt : Nat) (now : ℚ) : WaitRun :=
  let a := attempt + 1
  if found a then ⟨true, a, []⟩
  else if timeout ≤ ⌊now⌋ then ⟨false, a, []⟩
  else
    let actual := wait_actual jit timeout a now
    let rest := wait_loop found jit timeout a (now + actual)
    ⟨rest.found_result, rest.attempts,
      ⟨wait_delay a, wait_jitter jit a, actual, wait_remaining timeout now⟩ :: rest.sleeps⟩
termination_by (timeout - ⌊now⌋).toNat
decreasing_by
  apply wait_measure_decreases
  · omega
  · unfold wait_actual
    split
    · right; rfl
    · left
      have hd := two_le_wait_delay (attempt + 1)
      have hj : (0 : ℚ) ≤ wait_jitter jit (attempt + 1) := le_max_left 0 _
      linarith

/-- `ECRClient.wait_for_image found jit timeout`: run the polling loop
from attempt 0 at time 0. -/
def wait_for_image (found : Nat → Bool) (jit : Nat → ℚ) (timeout : ℤ) : WaitRun :=
  wait_loop found jit timeout 0 0

/-- The registry stub of the specification example: the image is found
on the third existence check. -/
def found_on_third (a : Nat) : Bool := a == 3

/-- A jitter stream that always draws zero. -/
def zero_jitter (_ : Nat) : ℚ := 0

/-! ## Concrete inputs used by counterexamples and examples -/

/-- A concrete ASG record with one desired instance. -/
def asgOne : AsgInfo :=
  { DesiredCapacity := 1, MinSize := 1, MaxSize := 2, Instances := [] }

/-- A concrete environment snapshot with desired capacity zero but a
target group whose entries are all healthy. -/
def capacityZeroHealthyStatus : EnvStatus :=
  { exists_ := true, asg_name := "superschedules-prod-asg-green",
    desired_capacity := 0, min_size := 0, max_size := 1, instances := [],
    health := [("frontend", ["healthy"])],
    total_hourly_cost := 0, total_monthly_cost := 0 }

/-- A concrete instance snapshot. -/
def sampleInstance : InstanceDetail :=
  { instance_id := "i-123", instance_type := "t3.micro", lifecycle := "spot",
    state := "running", launch_time := 0, uptime := ⟨0, 0, 0⟩, hourly_cost := 0,
    availability_zone := "us-east-1a" }

/-- A converged snapshot of the green environment: one instance, both
target groups all healthy. -/
def healthyGreenStatus : EnvStatus :=
  { exists_ := true, asg_name := "superschedules-prod-asg-green",
    desired_capacity := 1, min_size := 1, max_size := 2,
    instances := [sampleInstance],
    health := [("frontend", ["healthy"]), ("django", ["healthy"])],
    total_hourly_cost := 0, total_monthly_cost := 0 }

/-- The same snapshot while targets are still initializing. -/
def initialGreenStatus : EnvStatus :=
  { healthyGreenStatus with
    health := [("frontend", ["initial"]), ("django", ["initial"])] }

/-! # Theorems -/

/-! ## C10: deployment history contract -/

/-- C10: after `record_deploy tag service`, `get_current_tag` returns the
new tag, `get_previous_tag` returns what `get_current_tag` returned before
the call (`none` when the history was empty), and the stored list never
exceeds `MAX_HISTORY = 50` entries. -/
theorem record_deploy_history_contract
    (state : DeployState) (tag service timestamp deployed_by : String) :
    get_current_tag (record_deploy state tag service timestamp deployed_by) = some tag ∧
    get_previous_tag (record_deploy state tag service timestamp deployed_by) =
      get_current_tag state ∧
    (record_deploy state tag service timestamp deployed_by).deployments.length ≤
      MAX_HISTORY := by
  obtain ⟨deps⟩ := state
  refine ⟨rfl, ?_, ?_⟩
  · cases deps <;> rfl
  · simp [record_deploy]

/-! ## C9: graceful degradation of the environment sampler -/

/-- C9: `get_environment_status` never fails its caller: a missing
resource group yields the `exists=false` status with zero capacity, empty
instances and empty health; and an instance whose spot-pricing lookup
yields no price is assigned hourly cost zero. -/
theorem get_environment_status_degrades_gracefully
    (describe : List String → List Ec2Instance)
    (tg_health_of : String → List String)
    (spot_price : String → String → Option ℚ)
    (now : Nat) (asg_name : String)
    (target_group_arns : List (String × String)) :
    (get_environment_status none describe tg_health_of spot_price now asg_name
        target_group_arns =
      { exists_ := false, asg_name := "", desired_capacity := 0, min_size := 0,
        max_size := 0, instances := [], health := [],
        total_hourly_cost := 0, total_monthly_cost := 0 }) ∧
    (∀ info : AsgInfo, ∀ d : InstanceDetail,
      d ∈ (get_environment_status (some info) describe tg_health_of spot_price now
            asg_name target_group_arns).instances →
      d.lifecycle = "spot" →
      spot_price d.instance_type d.availability_zone = none →
      d.hourly_cost = 0) := by
  refine ⟨rfl, ?_⟩
  intro info d hd hspot hprice
  simp only [get_environment_status, List.mem_map] at hd
  obtain ⟨i, -, rfl⟩ := hd
  dsimp only at hspot hprice ⊢
  rw [hspot, hprice]
  rfl

/-! ## C4: the capacity heuristic -/

/-- C4: the heuristic fallback returns blue iff blue capacity is positive
and green capacity zero, green in the symmetric case, and unknown in all
other cases; a missing resource group counts as capacity zero; and the
result is a function of the two capacities alone. -/
theorem heuristic_fallback_characterization (blue_info green_info : Option AsgInfo) :
    (heuristic_fallback blue_info green_info = "blue" ↔
      0 < asgCapacity blue_info ∧ asgCapacity green_info = 0) ∧
    (heuristic_fallback blue_info green_info = "green" ↔
      0 < asgCapacity green_info ∧ asgCapacity blue_info = 0) ∧
    (heuristic_fallback blue_info green_info = "unknown" ↔
      ¬(0 < asgCapacity blue_info ∧ asgCapacity green_info = 0) ∧
      ¬(0 < asgCapacity green_info ∧ asgCapacity blue_info = 0)) ∧
    asgCapacity (none : Option AsgInfo) = 0 ∧
    (∀ bi gi : Option AsgInfo,
      asgCapacity bi = asgCapacity blue_info →
      asgCapacity gi = asgCapacity green_info →
      heuristic_fallback bi gi = heuristic_fallback blue_info green_info) := by
  have hchar : ∀ bi gi : Option AsgInfo,
      heuristic_fallback bi gi =
        (if 0 < asgCapacity bi ∧ asgCapacity gi = 0 then "blue"
         else if 0 < asgCapacity gi ∧ asgCapacity bi = 0 then "green"
         else "unknown") := by
    intro bi gi
    simp only [heuristic_fallback, gt_iff_lt, Bool.and_eq_true, decide_eq_true_eq,
      beq_iff_eq, ← ite_and]
  refine ⟨?_, ?_, ?_, rfl, ?_⟩
  · rw [hchar]
    split
    · simp_all
    · split <;> simp_all
  · rw [hchar]
    split
    · rename_i h
      simp only [show ("blue" = "green") = False by simp]
      simp only [false_iff]
      rintro ⟨h1, h2⟩
      omega
    · split
      · simp_all
      · simp_all
  · rw [hchar]
    split
    · rename_i h
      simp only [show ("blue" = "unknown") = False by simp, false_iff]
      tauto
    · split
      · rename_i h
        simp only [show ("green" = "unknown") = False by simp, false_iff]
        tauto
      · simp_all
  · intro bi gi h1 h2
    rw [hchar, hchar, h1, h2]

/-! ## C2: behaviour of the resolver when the authoritative read fails -/

/-- C2 (failing input): when the terraform read times out,
`get_active_environment` returns `None` without consulting the capacity
heuristic, although the heuristic on the same capacities (blue=1,
green=0) would have produced blue — and the generic failure path does
return exactly that heuristic result. -/
theorem get_active_environment_timeout_divergence :
    get_active_environment TfRead.timedOut (some asgOne) none = none ∧
    heuristic_fallback (some asgOne) none = "blue" ∧
    get_active_environment TfRead.failed (some asgOne) none = some "blue" := by
  exact ⟨rfl, rfl, rfl⟩

/-! ## C1: the unknown guard of deploy_to_inactive -/

/-- C1 (counterexample): an unresolved active value other than the exact
string unknown is not guarded.  When the authoritative read times out the
resolver yields `None`; `deploy_to_inactive` then proceeds, invokes the
external deploy trigger once (targeting blue) and can even return true. -/
theorem deploy_to_inactive_timeout_unguarded :
    (deploy_to_inactive
        (get_active_environment TfRead.timedOut (some asgOne) none)
        true true (some asgOne) 0 true true).deployCalls = 1 ∧
    (deploy_to_inactive
        (get_active_environment TfRead.timedOut (some asgOne) none)
        true true (some asgOne) 0 true true).result = true ∧
    (deploy_to_inactive
        (get_active_environment TfRead.timedOut (some asgOne) none)
        true true (some asgOne) 0 true true).target = some "blue" := by
  exact ⟨rfl, rfl, rfl⟩

/-- C1 (amended): only the exact resolution `unknown` is guarded: for it,
`deploy_to_inactive` invokes the external deploy trigger zero times and
returns false, whatever the other inputs. -/
theorem deploy_to_inactive_unknown_aborts
    (skip_confirm confirmAnswer : Bool) (info : Option AsgInfo)
    (deployExit : Int) (restartOk monitorResult : Bool) :
    deploy_to_inactive (some "unknown") skip_confirm confirmAnswer info deployExit
        restartOk monitorResult =
      { result := false, deployCalls := 0, target := none } := rfl

/-! ## C3: the convergence predicate -/

/-- The per-target-group check agrees with the settled-categories
formulation: nonempty, and all healthy or all unused. -/
theorem tg_all_healthy_eq (entries : List String) :
    tg_all_healthy entries =
      (!entries.isEmpty &&
        (entries.all (· == "healthy") || entries.all (· == "unused"))) := by
  cases entries with
  | nil => rfl
  | cons a l =>
      simp only [tg_all_healthy, List.isEmpty_cons, Bool.false_eq_true, if_false,
        Bool.not_false, Bool.true_and, beq_iff_eq]
      by_cases h1 : (a :: l).countP (· == "healthy") = (a :: l).length
      · rw [if_pos h1]
        have hall : (a :: l).all (· == "healthy") = true :=
          List.all_eq_true.mpr (List.countP_eq_length.mp h1)
        rw [hall, Bool.true_or]
      · rw [if_neg h1]
        have hall : (a :: l).all (· == "healthy") = false := by
          rcases h : (a :: l).all (· == "healthy") with - | -
          · rfl
          · exact absurd (List.countP_eq_length.mpr (List.all_eq_true.mp h)) h1
        rw [hall, Bool.false_or]
        by_cases h2 : (a :: l).countP (· == "unused") = (a :: l).length
        · rw [if_pos h2]
          exact (List.all_eq_true.mpr (List.countP_eq_length.mp h2)).symm
        · rw [if_neg h2]
          have hun : (a :: l).all (· == "unused") = false := by
            rcases h : (a :: l).all (· == "unused") with - | -
            · rfl
            · exact absurd (List.countP_eq_length.mpr (List.all_eq_true.mp h)) h2
          rw [hun]
          simp only [ite_self]

/-- C3 (counterexample): the claimed predicate and the monitor disagree on
a snapshot with desired capacity zero and an all-healthy target group:
the spec-worded predicate holds, but the monitor takes the
"No instances" branch and reports not ready. -/
theorem spec_converged_but_monitor_not_ready :
    spec_converged capacityZeroHealthyStatus = true ∧
    monitor_ready capacityZeroHealthyStatus = false := ⟨rfl, rfl⟩

/-- C3 (amended): the per-poll predicate of `_monitor_deployment` equals
the spec-worded convergence predicate strengthened by the guards of the
"No instances" branch: the status must exist and have positive desired
capacity. -/
theorem monitor_ready_eq_guarded_spec (status : EnvStatus) :
    monitor_ready status =
      (status.exists_ && !(status.desired_capacity == 0) && spec_converged status) := by
  obtain ⟨ex, name, cap, mins, maxs, insts, health, ch, cm⟩ := status
  simp only [monitor_ready, spec_converged, tg_all_healthy_eq]
  cases ex with
  | false => simp
  | true =>
      by_cases hc : cap = 0
      · subst hc; simp
      · simp only [Bool.not_true, Bool.false_or, Bool.not_false, Bool.true_and]
        rw [if_neg (by simp [hc])]
        simp [hc, Bool.and_assoc]

/-! ## C5: termination and first-hit behaviour of the wait loop -/

/-- The structural reformulation agrees with the while loop: starting the
loop with `elapsed = 600 - 10 * n` leaves exactly `n` iterations. -/
theorem monitorLoop_eq_monitorIter (statuses : Nat → EnvStatus) :
    ∀ n, n ≤ 60 → ∀ polls,
      monitorLoop statuses (600 - 10 * n) polls = monitorIter statuses polls n := by
  intro n
  induction n with
  | zero =>
      intro _ polls
      rw [monitorLoop]
      simp [max_wait_time, monitorIter]
  | succ k ih =>
      intro hk polls
      rw [monitorLoop]
      rw [if_pos (show 600 - 10 * (k + 1) < max_wait_time by
        simp only [max_wait_time]; omega)]
      rw [show 600 - 10 * (k + 1) + check_interval = 600 - 10 * k by
        simp only [check_interval]; omega]
      rw [monitorIter]
      split
      · rfl
      · exact ih (by omega) (polls + 1)

/-- `monitor_deployment` performs at most 60 iterations. -/
theorem monitor_deployment_eq_iter (statuses : Nat → EnvStatus) :
    monitor_deployment statuses = monitorIter statuses 0 60 := by
  have h := monitorLoop_eq_monitorIter statuses 60 (by omega) 0
  rw [monitor_deployment]
  rw [show (0 : Nat) = 600 - 10 * 60 by norm_num]
  exact h

/-- The loop returns true exactly when some poll within the budget is
ready. -/
theorem monitorIter_true_iff (statuses : Nat → EnvStatus) :
    ∀ n polls, (monitorIter statuses polls n).1 = true ↔
      ∃ i, i < n ∧ monitor_ready (statuses (polls + i)) = true := by
  intro n
  induction n with
  | zero => intro polls; simp [monitorIter]
  | succ k ih =>
      intro polls
      rw [monitorIter]
      by_cases h : monitor_ready (statuses polls) = true
      · rw [if_pos h]
        simp only [true_iff]
        exact ⟨0, by omega, by simpa using h⟩
      · rw [if_neg h]
        rw [ih (polls + 1)]
        constructor
        · rintro ⟨i, hi, hr⟩
          exact ⟨i + 1, by omega, by rwa [show polls + (i + 1) = polls + 1 + i by omega]⟩
        · rintro ⟨i, hi, hr⟩
          match i with
          | 0 => exact absurd (by simpa using hr) h
          | j + 1 =>
              exact ⟨j, by omega, by rwa [show polls + 1 + j = polls + (j + 1) by omega]⟩

/-- The loop makes at most `n` further polls. -/
theorem monitorIter_polls_le (statuses : Nat → EnvStatus) :
    ∀ n polls, (monitorIter statuses polls n).2 ≤ polls + n := by
  intro n
  induction n with
  | zero => intro polls; simp [monitorIter]
  | succ k ih =>
      intro polls
      rw [monitorIter]
      split
      · simp
      · have := ih (polls + 1)
        omega

/-- The loop stops at the first ready poll. -/
theorem monitorIter_first_hit (statuses : Nat → EnvStatus) :
    ∀ n polls k, k < n → monitor_ready (statuses (polls + k)) = true →
      (∀ j, j < k → monitor_ready (statuses (polls + j)) = false) →
      monitorIter statuses polls n = (true, polls + k + 1) := by
  intro n
  induction n with
  | zero => intro polls k hk; omega
  | succ m ih =>
      intro polls k hk hr hmin
      rw [monitorIter]
      match k with
      | 0 =>
          rw [if_pos (by simpa using hr)]
      | j + 1 =>
          rw [if_neg (by simpa using (hmin 0 (by omega)))]
          rw [ih (polls + 1) j (by omega)
            (by rwa [show polls + 1 + j = polls + (j + 1) by omega])
            (fun i hi => by
              rw [show polls + 1 + i = polls + (i + 1) by omega]
              exact hmin (i + 1) (by omega))]
          rw [show polls + 1 + j + 1 = polls + (j + 1) + 1 by omega]

/-- When no poll within the budget is ready, the loop runs all
iterations and reports failure. -/
theorem monitorIter_all_false (statuses : Nat → EnvStatus) :
    ∀ n polls, (∀ i, i < n → monitor_ready (statuses (polls + i)) = false) →
      monitorIter statuses polls n = (false, polls + n) := by
  intro n
  induction n with
  | zero => intro polls _; simp [monitorIter]
  | succ k ih =>
      intro polls h
      rw [monitorIter]
      rw [if_neg (by simpa using h 0 (by omega))]
      rw [ih (polls + 1) (fun i hi => by
        rw [show polls + 1 + i = polls + (i + 1) by omega]
        exact h (i + 1) (by omega))]
      rw [show polls + 1 + k = polls + (k + 1) by omega]

/-- C5: the convergence wait of `_monitor_deployment` terminates on every
status stream within `max_wait_time / check_interval = 60` polls; it
returns true exactly when some poll within the budget satisfies the
readiness predicate, stopping at the first such poll; and when no poll
within the budget is ready it runs the full budget and returns false. -/
theorem monitor_deployment_bounded_first_hit (statuses : Nat → EnvStatus) :
    (monitor_deployment statuses).2 ≤ max_wait_time / check_interval ∧
    ((monitor_deployment statuses).1 = true ↔
      ∃ i, i < 60 ∧ monitor_ready (statuses i) = true) ∧
    (∀ k, k < 60 → monitor_ready (statuses k) = true →
      (∀ j, j < k → monitor_ready (statuses j) = false) →
      monitor_deployment statuses = (true, k + 1)) ∧
    ((∀ i, i < 60 → monitor_ready (statuses i) = false) →
      monitor_deployment statuses = (false, 60)) := by
  rw [monitor_deployment_eq_iter]
  refine ⟨?_, ?_, ?_, ?_⟩
  · have := monitorIter_polls_le statuses 60 0
    simp only [max_wait_time, check_interval]
    omega
  · rw [monitorIter_true_iff statuses 60 0]
    simp
  · intro k hk hr hmin
    have := monitorIter_first_hit statuses 60 0 k hk (by simpa using hr)
      (fun j hj => by simpa using hmin j hj)
    simpa using this
  · intro h
    have := monitorIter_all_false statuses 60 0 (fun i hi => by simpa using h i hi)
    simpa using this

/-! ## C6: ordering of deploy and flip in deploy_and_flip -/

/-- C6: `deploy_and_flip` invokes the traffic flip only after
`deploy_to_inactive` reports success; a failed deploy aborts with zero
flip invocations and a false result; and a failed flip after a
successful deploy is reported with the distinct deployed-but-not-flipped
outcome together with a false result. -/
theorem deploy_and_flip_ordering (active activeInner : Option String)
    (info : Option AsgInfo) (deployExit : Int) (restartOk monitorResult : Bool)
    (activeFlip : Option String) (runCmd : FlipCmd → ActionResult) :
    (0 < (deploy_and_flip active activeInner info deployExit restartOk monitorResult
        activeFlip runCmd).flipCalls →
      (deploy_to_inactive activeInner true true info deployExit restartOk
        monitorResult).result = true) ∧
    ((deploy_to_inactive activeInner true true info deployExit restartOk
        monitorResult).result = false →
      (deploy_and_flip active activeInner info deployExit restartOk monitorResult
        activeFlip runCmd).flipCalls = 0 ∧
      (deploy_and_flip active activeInner info deployExit restartOk monitorResult
        activeFlip runCmd).result = false) ∧
    (active ≠ some "unknown" →
      (deploy_to_inactive activeInner true true info deployExit restartOk
        monitorResult).result = true →
      (flip_traffic activeFlip
          (some (if active == some "blue" then "green" else "blue"))
          true true runCmd).result = false →
      (deploy_and_flip active activeInner info deployExit restartOk monitorResult
        activeFlip runCmd).result = false ∧
      (deploy_and_flip active activeInner info deployExit restartOk monitorResult
        activeFlip runCmd).report = DAFReport.deployedNotFlipped) ∧
    DAFReport.deployedNotFlipped ≠ DAFReport.deployFailedAborted := by
  have hrep : DAFReport.deployedNotFlipped ≠ DAFReport.deployFailedAborted := by decide
  by_cases hu : (active == some "unknown") = true
  · have hact : active = some "unknown" := by simpa using hu
    refine ⟨?_, ?_, fun hne => absurd hact hne, hrep⟩
    · simp [deploy_and_flip, hu]
    · simp [deploy_and_flip, hu]
  · by_cases hd : (deploy_to_inactive activeInner true true info deployExit restartOk
        monitorResult).result = true
    · refine ⟨fun _ => hd, ?_, ?_, hrep⟩
      · intro hdf
        rw [hd] at hdf
        cases hdf
      · intro _ _ hf
        unfold deploy_and_flip
        rw [if_neg hu]
        dsimp only
        rw [if_neg (by simp [hd])]
        rw [if_neg (by rw [hf]; simp)]
        exact ⟨rfl, rfl⟩
    · have hd' : (deploy_to_inactive activeInner true true info deployExit restartOk
          monitorResult).result = false := by
        simpa using hd
      refine ⟨?_, ?_, fun _ hd2 _ => absurd hd2 hd, hrep⟩
      · intro hpos
        exfalso
        unfold deploy_and_flip at hpos
        rw [if_neg hu] at hpos
        dsimp only at hpos
        rw [if_pos (by simp [hd'])] at hpos
        simp at hpos
      · intro _
        unfold deploy_and_flip
        rw [if_neg hu]
        dsimp only
        rw [if_pos (by simp [hd'])]
        exact ⟨rfl, rfl⟩

/-! ## C7: direction of the traffic flip -/

/-- C7: whenever `flip_traffic` reaches the external action (the
confirmation gate passes), it invokes exactly one of the two
traffic-switch actions — the forward one when the selected target is
green and the rollback one when it is blue — and on action failure it
returns false and surfaces the captured stderr; when the gate declines,
no action is invoked. -/
theorem flip_traffic_direction (active target_env : Option String)
    (skip_confirm confirmAnswer : Bool) (runCmd : FlipCmd → ActionResult) :
    ((skip_confirm || confirmAnswer) = true →
      (flip_traffic active target_env skip_confirm confirmAnswer runCmd).forwardCalls +
        (flip_traffic active target_env skip_confirm confirmAnswer runCmd).rollbackCalls
        = 1 ∧
      (flip_target active target_env = "green" →
        (flip_traffic active target_env skip_confirm confirmAnswer
          runCmd).forwardCalls = 1) ∧
      (flip_target active target_env = "blue" →
        (flip_traffic active target_env skip_confirm confirmAnswer
          runCmd).rollbackCalls = 1) ∧
      (∀ s, runCmd (flip_cmd_of (flip_target active target_env)) =
          ActionResult.procError s →
        (flip_traffic active target_env skip_confirm confirmAnswer
          runCmd).result = false ∧
        (flip_traffic active target_env skip_confirm confirmAnswer
          runCmd).surfacedErr = (if s.isEmpty then none else some s))) ∧
    ((skip_confirm || confirmAnswer) = false →
      (flip_traffic active target_env skip_confirm confirmAnswer
        runCmd).forwardCalls = 0 ∧
      (flip_traffic active target_env skip_confirm confirmAnswer
        runCmd).rollbackCalls = 0) := by
  constructor
  · intro hsc
    have hcond : ¬((!skip_confirm && !confirmAnswer) = true) := by
      cases skip_confirm <;> cases confirmAnswer <;> simp_all
    unfold flip_traffic
    rw [if_neg hcond]
    dsimp only
    rcases hrun : runCmd (flip_cmd_of (flip_target active target_env)) with out | s
    · refine ⟨?_, ?_, ?_, ?_⟩
      · dsimp only
        split <;> rfl
      · intro ht
        dsimp only
        rw [ht]
        rfl
      · intro ht
        dsimp only
        rw [ht]
        rfl
      · intro s hs
        exact ActionResult.noConfusion hs
    · refine ⟨?_, ?_, ?_, ?_⟩
      · dsimp only
        split <;> rfl
      · intro ht
        dsimp only
        rw [ht]
        rfl
      · intro ht
        dsimp only
        rw [ht]
        rfl
      · intro s2 hs2
        injection hs2 with h2
        subst h2
        exact ⟨rfl, rfl⟩
  · intro hsc
    have hcond : (!skip_confirm && !confirmAnswer) = true := by
      cases skip_confirm <;> cases confirmAnswer <;> simp_all
    unfold flip_traffic
    rw [if_pos hcond]
    exact ⟨rfl, rfl⟩

/-! ## C8: the image readiness poller -/

/-- A check that finds the image ends the loop at once. -/
theorem wait_loop_found_eq (found : Nat → Bool) (jit : Nat → ℚ) (timeout : ℤ)
    (attempt : Nat) (now : ℚ) (hf : found (attempt + 1) = true) :
    wait_loop found jit timeout attempt now = ⟨true, attempt + 1, []⟩ := by
  rw [wait_loop]
  dsimp only
  rw [if_pos hf]

/-- A failed check with the budget exhausted ends the loop with failure. -/
theorem wait_loop_timeout_eq (found : Nat → Bool) (jit : Nat → ℚ) (timeout : ℤ)
    (attempt : Nat) (now : ℚ) (hf : found (attempt + 1) = false)
    (ht : timeout ≤ ⌊now⌋) :
    wait_loop found jit timeout attempt now = ⟨false, attempt + 1, []⟩ := by
  rw [wait_loop]
  dsimp only
  rw [if_neg (by simp [hf]), if_pos ht]

/-- A failed check with budget left sleeps and recurses. -/
theorem wait_loop_rec_eq (found : Nat → Bool) (jit : Nat → ℚ) (timeout : ℤ)
    (attempt : Nat) (now : ℚ) (hf : found (attempt + 1) = false)
    (ht : ¬timeout ≤ ⌊now⌋) :
    wait_loop found jit timeout attempt now =
      ⟨(wait_loop found jit timeout (attempt + 1)
          (now + wait_actual jit timeout (attempt + 1) now)).found_result,
        (wait_loop found jit timeout (attempt + 1)
          (now + wait_actual jit timeout (attempt + 1) now)).attempts,
        ⟨wait_delay (attempt + 1), wait_jitter jit (attempt + 1),
          wait_actual jit timeout (attempt + 1) now, wait_remaining timeout now⟩ ::
          (wait_loop found jit timeout (attempt + 1)
            (now + wait_actual jit timeout (attempt + 1) now)).sleeps⟩ := by
  rw [wait_loop]
  dsimp only
  rw [if_neg (by simp [hf]), if_neg ht]

/-- Each sleep record of the loop satisfies the source's bounds. -/
theorem wait_sleep_ok (jit : Nat → ℚ) (timeout : ℤ) (a : Nat) (now : ℚ) :
    sleepRecOK ⟨wait_delay a, wait_jitter jit a, wait_actual jit timeout a now,
      wait_remaining timeout now⟩ := by
  have hd0 : (0 : ℚ) ≤ wait_delay a := le_trans (by norm_num) (two_le_wait_delay a)
  refine ⟨le_max_left 0 _, ?_, ?_, ?_⟩
  · exact max_le (by positivity) (min_le_right _ _)
  · dsimp only
    unfold wait_actual
    split
    · exact le_refl _
    · exact le_of_not_lt (by assumption)
  · dsimp only
    unfold wait_actual
    split
    · exact le_of_lt (by assumption)
    · exact le_refl _

/-- The invariant of the polling loop, by induction on the timeout
measure: attempts advance, every check before the last one failed, the
result reflects the last check, and every recorded sleep uses the
backoff schedule within the source's bounds. -/
theorem wait_loop_invariant (found : Nat → Bool) (jit : Nat → ℚ) (timeout : ℤ) :
    ∀ N attempt (now : ℚ), (timeout - ⌊now⌋).toNat ≤ N →
      attempt < (wait_loop found jit timeout attempt now).attempts ∧
      (∀ b, attempt < b → b < (wait_loop found jit timeout attempt now).attempts →
        found b = false) ∧
      ((wait_loop found jit timeout attempt now).found_result = true →
        found ((wait_loop found jit timeout attempt now).attempts) = true) ∧
      ((wait_loop found jit timeout attempt now).found_result = false →
        found ((wait_loop found jit timeout attempt now).attempts) = false) ∧
      ((wait_loop found jit timeout attempt now).found_result = false →
        (timeout : ℚ) ≤ now +
          ((wait_loop found jit timeout attempt now).sleeps.map fun rec => rec.sleep).sum) ∧
      (∀ i, (hi : i < (wait_loop found jit timeout attempt now).sleeps.length) →
        ((wait_loop found jit timeout attempt now).sleeps.get ⟨i, hi⟩).delay =
          (backoff_delay (attempt + 1 + i) : ℚ) ∧
        sleepRecOK ((wait_loop found jit timeout attempt now).sleeps.get ⟨i, hi⟩)) := by
  intro N
  induction N with
  | zero =>
      intro attempt now hN
      by_cases hf : found (attempt + 1) = true
      · rw [wait_loop_found_eq found jit timeout attempt now hf]
        dsimp only
        refine ⟨Nat.lt_succ_self _, ?_, fun _ => hf, ?_, ?_, ?_⟩
        · intro b h1 h2; omega
        · intro h; exact absurd h (by simp)
        · intro h; exact absurd h (by simp)
        · intro i hi; exact absurd hi (by simp)
      · have hf2 : found (attempt + 1) = false := Bool.eq_false_iff.mpr hf
        have ht : timeout ≤ ⌊now⌋ := by omega
        rw [wait_loop_timeout_eq found jit timeout attempt now hf2 ht]
        dsimp only
        refine ⟨Nat.lt_succ_self _, ?_, ?_, fun _ => hf2, ?_, ?_⟩
        · intro b h1 h2; omega
        · intro h; exact absurd h (by simp)
        · intro _
          simp only [List.map_nil, List.sum_nil, add_zero]
          have h1 : ((timeout : ℤ) : ℚ) ≤ ((⌊now⌋ : ℤ) : ℚ) := by exact_mod_cast ht
          have h2 := Int.floor_le now
          linarith
        · intro i hi; exact absurd hi (by simp)
  | succ N ih =>
      intro attempt now hN
      by_cases hf : found (attempt + 1) = true
      · rw [wait_loop_found_eq found jit timeout attempt now hf]
        dsimp only
        refine ⟨Nat.lt_succ_self _, ?_, fun _ => hf, ?_, ?_, ?_⟩
        · intro b h1 h2; omega
        · intro h; exact absurd h (by simp)
        · intro h; exact absurd h (by simp)
        · intro i hi; exact absurd hi (by simp)
      · have hf2 : found (attempt + 1) = false := Bool.eq_false_iff.mpr hf
        by_cases ht : timeout ≤ ⌊now⌋
        · rw [wait_loop_timeout_eq found jit timeout attempt now hf2 ht]
          dsimp only
          refine ⟨Nat.lt_succ_self _, ?_, ?_, fun _ => hf2, ?_, ?_⟩
          · intro b h1 h2; omega
          · intro h; exact absurd h (by simp)
          · intro _
            simp only [List.map_nil, List.sum_nil, add_zero]
            have h1 : ((timeout : ℤ) : ℚ) ≤ ((⌊now⌋ : ℤ) : ℚ) := by exact_mod_cast ht
            have h2 := Int.floor_le now
            linarith
          · intro i hi; exact absurd hi (by simp)
        · rw [wait_loop_rec_eq found jit timeout attempt now hf2 ht]
          have hlt : ⌊now⌋ < timeout := by omega
          have hdec : (timeout - ⌊now + wait_actual jit timeout (attempt + 1) now⌋).toNat <
              (timeout - ⌊now⌋).toNat := by
            apply wait_measure_decreases timeout now _ hlt
            unfold wait_actual
            split
            · right; rfl
            · left
              have hd := two_le_wait_delay (attempt + 1)
              have hj : (0 : ℚ) ≤ wait_jitter jit (attempt + 1) := le_max_left 0 _
              linarith
          obtain ⟨ih1, ih2, ih3, ih4, ih5, ih6⟩ :=
            ih (attempt + 1) (now + wait_actual jit timeout (attempt + 1) now) (by omega)
          dsimp only
          refine ⟨by omega, ?_, ih3, ih4, ?_, ?_⟩
          · intro b hb1 hb2
            rcases Nat.lt_or_ge (attempt + 1) b with h | h
            · exact ih2 b h hb2
            · have hb : b = attempt + 1 := by omega
              rw [hb]
              exact hf2
          · intro h
            have hsum := ih5 h
            simp only [List.map_cons, List.sum_cons]
            linarith
          · intro i hi
            cases i with
            | zero =>
                refine ⟨?_, wait_sleep_ok jit timeout (attempt + 1) now⟩
                show wait_delay (attempt + 1) = (backoff_delay (attempt + 1 + 0) : ℚ)
                rw [wait_delay]
            | succ j =>
                have hj : j < (wait_loop found jit timeout (attempt + 1)
                    (now + wait_actual jit timeout (attempt + 1) now)).sleeps.length := by
                  simpa using hi
                have h6 := ih6 j hj
                rw [show attempt + 1 + (j + 1) = attempt + 1 + 1 + j from by omega]
                exact h6

/-- C8: `wait_for_image` returns true exactly at the first existence
check that finds the tag (having made exactly that many checks, each
earlier one failing) and returns false only on timeout — every check
failed and the accumulated sleep time has reached the timeout; the
pre-jitter delay of the i-th sleep is `backoff_delay (i+1)`, so the
delays run 2, 4, 8, 15, 15, ... — doubling from base 2, capped at 15
once the exponent cap is reached — and are monotonically non-decreasing;
the jitter never exceeds 20 percent of the delay, and no sleep exceeds
the remaining timeout budget. -/
theorem wait_for_image_backoff_spec (found : Nat → Bool) (jit : Nat → ℚ) (timeout : ℤ) :
    0 < (wait_for_image found jit timeout).attempts ∧
    ((wait_for_image found jit timeout).found_result = true →
      found ((wait_for_image found jit timeout).attempts) = true) ∧
    ((wait_for_image found jit timeout).found_result = false →
      found ((wait_for_image found jit timeout).attempts) = false) ∧
    ((wait_for_image found jit timeout).found_result = false →
      (timeout : ℚ) ≤
        ((wait_for_image found jit timeout).sleeps.map fun rec => rec.sleep).sum) ∧
    (∀ b, 0 < b → b < (wait_for_image found jit timeout).attempts →
      found b = false) ∧
    (∀ i, (hi : i < (wait_for_image found jit timeout).sleeps.length) →
      ((wait_for_image found jit timeout).sleeps.get ⟨i, hi⟩).delay =
        (backoff_delay (i + 1) : ℚ) ∧
      sleepRecOK ((wait_for_image found jit timeout).sleeps.get ⟨i, hi⟩)) ∧
    backoff_delay 1 = 2 ∧ backoff_delay 2 = 4 ∧ backoff_delay 3 = 8 ∧
    (∀ a, 4 ≤ a → backoff_delay a = 15) ∧
    (∀ a b, a ≤ b → backoff_delay a ≤ backoff_delay b) := by
  obtain ⟨h1, h2, h3, h4, h5, h6⟩ :=
    wait_loop_invariant found jit timeout (timeout - ⌊(0 : ℚ)⌋).toNat 0 0 le_rfl
  rw [wait_for_image]
  refine ⟨h1, h3, h4, ?_, h2, ?_, by decide, by decide, by decide, ?_, ?_⟩
  · intro h
    have := h5 h
    rwa [zero_add] at this
  · intro i hi
    have := h6 i hi
    rwa [show (0 : Nat) + 1 + i = i + 1 from by omega] at this
  · intro a ha
    unfold backoff_delay base_delay max_delay
    rw [show min (a - 1) 3 = 3 from by omega]
    decide
  · intro a b hab
    unfold backoff_delay
    exact min_le_min
      (Nat.mul_le_mul_left _
        (Nat.pow_le_pow_right (by norm_num)
          (min_le_min (Nat.sub_le_sub_right hab 1) le_rfl)))
      le_rfl

/-! ## Concrete runs (the example scenarios of the specification) -/

/-- Sampler ready on the third poll: the monitor returns true after
exactly 3 samples. -/
theorem monitor_deployment_third_poll_example :
    monitor_deployment
      (fun i => if i == 2 then healthyGreenStatus else initialGreenStatus) =
      (true, 3) := by
  rw [monitor_deployment_eq_iter]
  decide

/-- Sampler that always reports initializing targets: the monitor runs
the full 60-poll budget and returns false. -/
theorem monitor_deployment_timeout_example :
    monitor_deployment (fun _ => initialGreenStatus) = (false, 60) := by
  rw [monitor_deployment_eq_iter]
  decide

/-- Flipping with auto-detected target while blue is active issues the
forward action and succeeds on a successful action run. -/
theorem flip_traffic_forward_example :
    flip_traffic (some "blue") none true true (fun _ => ActionResult.ok "") =
      { result := true, forwardCalls := 1, rollbackCalls := 0,
        surfacedErr := none } := rfl

/-- The registry stub that reports found on the third check: the poller
returns true having made exactly 3 existence checks, with pre-jitter
delays 2 and 4 between them. -/
theorem wait_for_image_third_check_example :
    wait_for_image found_on_third zero_jitter 1200 =
      ⟨true, 3, [⟨2, 0, 2, 1200⟩, ⟨4, 0, 4, 1198⟩]⟩ := by
  have ha1 : wait_actual zero_jitter 1200 1 0 = 2 := by
    unfold wait_actual wait_remaining wait_jitter wait_delay zero_jitter
      backoff_delay base_delay max_delay
    norm_num
  have ha2 : wait_actual zero_jitter 1200 2 2 = 4 := by
    unfold wait_actual wait_remaining wait_jitter wait_delay zero_jitter
      backoff_delay base_delay max_delay
    norm_num
  have hj1 : wait_jitter zero_jitter 1 = 0 := by
    unfold wait_jitter wait_delay zero_jitter backoff_delay base_delay max_delay
    norm_num
  have hj2 : wait_jitter zero_jitter 2 = 0 := by
    unfold wait_jitter wait_delay zero_jitter backoff_delay base_delay max_delay
    norm_num
  have hd1 : wait_delay 1 = 2 := by
    unfold wait_delay backoff_delay base_delay max_delay
    norm_num
  have hd2 : wait_delay 2 = 4 := by
    unfold wait_delay backoff_delay base_delay max_delay
    norm_num
  have hr1 : wait_remaining 1200 0 = 1200 := by
    unfold wait_remaining
    norm_num
  have hr2 : wait_remaining 1200 2 = 1198 := by
    unfold wait_remaining
    norm_num
  rw [wait_for_image]
  rw [wait_loop_rec_eq found_on_third zero_jitter 1200 0 0 (by decide) (by norm_num)]
  rw [ha1]
  norm_num
  rw [wait_loop_rec_eq found_on_third zero_jitter 1200 1 2 (by decide) (by norm_num)]
  rw [ha2]
  norm_num
  rw [wait_loop_found_eq found_on_third zero_jitter 1200 2 6 (by decide)]
  exact ⟨rfl, rfl, ⟨hd1, hj1, hr1⟩, ⟨hd2, hj2, hr2⟩, rfl⟩
